import Mathlib

/-!
Verification development for a cross-venue arbitrage trading engine
(Kalshi / Polymarket).  Prices and sizes are Python `Decimal` values in the
source; they are embedded as exact rationals (`ℚ`).  Python dictionaries are
embedded as association lists, mutation as explicit state passing, and
exceptions as explicit error outcomes.
-/

/-- The two trading venues (`app/domain/primitives.py`, class `Platform`). -/
inductive Platform
  | kalshi
  | polymarket
deriving DecidableEq

/-- Book sides (`app/domain/primitives.py`, `SIDES = Side()` with members
`BUY` and `SELL`). -/
inductive Side
  | buy
  | sell
deriving DecidableEq

/-- Outcome of a binary market: the `'YES'` / `'NO'` literals used by
`MarketOutcomes.get_book` (`app/markets/state.py`). -/
inductive Outcome
  | yes
  | no
deriving DecidableEq

/-- A price level `(price, size)` as stored in the sorted dictionaries of
`app/markets/order_book.py`. -/
abbrev Level := ℚ × ℚ

/-- One side of a book: the `price → size` mapping of a `SortedDict`,
embedded as an association list with no duplicate prices.  Only the
key-value content matters: top-of-book is computed by scanning for the
extremal price. -/
abbrev BookLevels := List Level

/-- Dictionary write `book_side[price] = size` and `book_side.pop(price,
None)` from `Orderbook.apply_update`: if `size == 0` the level is removed,
otherwise it is set. -/
def levelsSet (levels : BookLevels) (price size : ℚ) : BookLevels :=
  if size = 0 then levels.filter (fun l => decide (l.1 ≠ price))
  else (price, size) :: levels.filter (fun l => decide (l.1 ≠ price))

/-- The entry with the maximal price: `self.bids.peekitem(0)` of the
descending-sorted bid dictionary. -/
def bestBid : BookLevels → Option Level
  | [] => none
  | l :: ls =>
    match bestBid ls with
    | none => some l
    | some m => if m.1 < l.1 then some l else some m

/-- The entry with the minimal price: `self.asks.peekitem(0)` of the
ascending-sorted ask dictionary. -/
def bestAsk : BookLevels → Option Level
  | [] => none
  | l :: ls =>
    match bestAsk ls with
    | none => some l
    | some m => if l.1 < m.1 then some l else some m

/-- An order book for one (venue, market, outcome): class `Orderbook` of
`app/markets/order_book.py`.  The `last_update` wall-clock timestamp is
real time and is not part of this embedding. -/
structure Orderbook where
  bids : BookLevels
  asks : BookLevels
deriving DecidableEq

/-- `Orderbook.apply_update(side, price, size)`: route the update to the
bid or ask dictionary; zero size deletes the level. -/
def Orderbook.applyUpdate (b : Orderbook) (side : Side) (price size : ℚ) : Orderbook :=
  match side with
  | Side.buy => { b with bids := levelsSet b.bids price size }
  | Side.sell => { b with asks := levelsSet b.asks price size }

/-- `Orderbook.clear()`: empties both ladders. -/
def Orderbook.clearBook (_ : Orderbook) : Orderbook := ⟨[], []⟩

/-- `Orderbook.get_top_of_book()`: `(best_bid, best_ask)`, each an optional
`(price, size)` pair. -/
def Orderbook.getTopOfBook (b : Orderbook) : Option Level × Option Level :=
  (bestBid b.bids, bestAsk b.asks)

/-- Container of the YES and NO books: class `MarketOutcomes` of
`app/markets/state.py`. -/
structure MarketOutcomes where
  yes : Option Orderbook
  no : Option Orderbook
deriving DecidableEq

/-- `MarketOutcomes.get_book(outcome)`. -/
def MarketOutcomes.getBook (mo : MarketOutcomes) : Outcome → Option Orderbook
  | Outcome.yes => mo.yes
  | Outcome.no => mo.no

/-- Replace the book for the given outcome.  The Python handler mutates the
object returned by `get_book` in place; this is the explicit write-back. -/
def MarketOutcomes.setBook (mo : MarketOutcomes) (oc : Outcome) (b : Orderbook) : MarketOutcomes :=
  match oc with
  | Outcome.yes => { mo with yes := some b }
  | Outcome.no => { mo with no := some b }

/-- Per-market state: class `MarketState` of `app/markets/state.py`.  The
`platforms` dictionary is keyed by the two-valued `Platform` enum, so it is
embedded as one optional entry per venue. -/
structure MarketState where
  marketId : String
  kalshi : Option MarketOutcomes
  polymarket : Option MarketOutcomes
deriving DecidableEq

/-- `MarketState.get_outcomes_for_platform(platform)`:
`self.platforms.get(platform)`. -/
def MarketState.getOutcomesForPlatform (ms : MarketState) : Platform → Option MarketOutcomes
  | Platform.kalshi => ms.kalshi
  | Platform.polymarket => ms.polymarket

/-- Write-back counterpart of `getOutcomesForPlatform`. -/
def MarketState.setOutcomes (ms : MarketState) (pf : Platform) (mo : MarketOutcomes) : MarketState :=
  match pf with
  | Platform.kalshi => { ms with kalshi := some mo }
  | Platform.polymarket => { ms with polymarket := some mo }

/-- The state owned by `MarketManager` (`app/markets/manager.py`): the
`market_states` dictionary `market id → MarketState`. -/
structure ManagerState where
  markets : List (String × MarketState)
deriving DecidableEq

/-- Dictionary lookup `self.market_states.get(market_id)`. -/
def ManagerState.getMarketState (st : ManagerState) (mid : String) : Option MarketState :=
  (st.markets.find? (fun p => decide (p.1 = mid))).map Prod.snd

/-- Write-back of an updated `MarketState` under its market id. -/
def ManagerState.setMarketState (st : ManagerState) (mid : String) (ms : MarketState) : ManagerState :=
  ⟨st.markets.map (fun p => if p.1 = mid then (p.1, ms) else p)⟩

/-- The lookup chain performed at the top of `_handle_snapshot` and
`_handle_delta`: market state, then platform outcomes, then book; any
missing link yields `none` (the handler returns early). -/
def lookupBook (st : ManagerState) (mid : String) (pf : Platform) (oc : Outcome) : Option Orderbook :=
  match st.getMarketState mid with
  | none => none
  | some ms =>
    match ms.getOutcomesForPlatform pf with
    | none => none
    | some mo => mo.getBook oc

/-- Write an updated book back through the same chain. -/
def ManagerState.setBook (st : ManagerState) (mid : String) (pf : Platform) (oc : Outcome)
    (b : Orderbook) : ManagerState :=
  match st.getMarketState mid with
  | none => st
  | some ms =>
    match ms.getOutcomesForPlatform pf with
    | none => st
    | some mo => st.setMarketState mid (ms.setOutcomes pf (mo.setBook oc b))

/-- Event `OrderBookSnapshotReceived` (`app/domain/events.py`): bids and
asks as price-level lists. -/
structure SnapshotEvent where
  platform : Platform
  marketId : String
  outcome : Outcome
  bids : List Level
  asks : List Level
deriving DecidableEq

/-- Event `OrderBookDeltaReceived` (`app/domain/events.py`): the new final
size at one price level. -/
structure DeltaEvent where
  platform : Platform
  marketId : String
  outcome : Outcome
  side : Side
  price : ℚ
  size : ℚ
deriving DecidableEq

/-- Events published by the manager: `MarketBookUpdated`. -/
inductive BusEvent
  | bookUpdated (marketId : String) (platform : Platform)
deriving DecidableEq

/-- A Python runtime exception escaping a handler (the bus loop at
`app/message_bus.py` lines 44-47 catches and logs it, so processing
continues with the state the handler left behind). -/
inductive PyError
  | attributeError
deriving DecidableEq

/-- `MarketManager._handle_snapshot` (`app/markets/manager.py` lines 63-96):
locate the book (early return if any lookup fails), read the old
top-of-book, then `book.clear()` (line 77).  The next statement,
`book.apply_updates(SIDES.BUY, updates)` (line 86), raises
`AttributeError`: the `Orderbook` class (`app/markets/order_book.py`)
defines `apply_update`, `get_top_of_book`, `get_book_snapshot` and `clear`,
but no `apply_updates` method.  So on every snapshot for a registered book
the handler leaves the book cleared, publishes nothing, and aborts; the
snapshot's levels are never applied and the top-of-book comparison at line
90 is never reached.  Returns the new manager state and published events,
together with the escaping exception, if any. -/
def handleSnapshot (st : ManagerState) (e : SnapshotEvent) :
    (ManagerState × List BusEvent) × Option PyError :=
  match lookupBook st e.marketId e.platform e.outcome with
  | none => ((st, []), none)
  | some book =>
    ((st.setBook e.marketId e.platform e.outcome book.clearBook, []),
     some PyError.attributeError)

/-- `MarketManager._handle_delta` (`app/markets/manager.py` lines 98-118):
locate the book, apply the single `(side, price, size)` update, and publish
`MarketBookUpdated` exactly when the top-of-book tuple changed. -/
def handleDelta (st : ManagerState) (e : DeltaEvent) : ManagerState × List BusEvent :=
  match lookupBook st e.marketId e.platform e.outcome with
  | none => (st, [])
  | some book =>
    let oldTob := book.getTopOfBook
    let book2 := book.applyUpdate e.side e.price e.size
    let st2 := st.setBook e.marketId e.platform e.outcome book2
    if oldTob ≠ book2.getTopOfBook then (st2, [BusEvent.bookUpdated e.marketId e.platform])
    else (st2, [])

/-- `MarketManager.register_market` (`app/markets/manager.py` lines 45-61):
idempotent; Kalshi gets only a YES book, Polymarket gets both. -/
def registerMarket (st : ManagerState) (mid : String) : ManagerState :=
  match st.getMarketState mid with
  | some _ => st
  | none =>
    ⟨st.markets ++ [(mid,
      { marketId := mid
        kalshi := some { yes := some ⟨[], []⟩, no := none }
        polymarket := some { yes := some ⟨[], []⟩, no := some ⟨[], []⟩ } })]⟩

/-- Order model `KalshiOrder` (`app/domain/types.py`), restricted to the
fields the executor reads.  `trade_size` is always set by
`TradeGateway.process_raw_kalshi_order`, so it is total here; `order_id`
and `side` are optional in the source model. -/
structure KalshiOrder where
  order_id : Option String
  side : Option String
  status : String
  ticker : String
  trade_size : ℚ
deriving DecidableEq

/-- Order model `PolymarketOrder` (`app/domain/types.py`), restricted to the
fields the executor reads.  Note: the model defines `orderID`; it has NO
field named `id`. -/
structure PolymarketOrder where
  orderID : Option String
  status : String
  success : Bool
  trade_size : ℚ
  token_id : Option String
deriving DecidableEq

/-- Opportunity model `ArbitrageOpportunity`
(`app/domain/models/opportunity.py`). -/
structure ArbitrageOpportunity where
  market_id : String
  buy_yes_platform : Platform
  buy_yes_price : ℚ
  buy_no_platform : Platform
  buy_no_price : ℚ
  profit_margin : ℚ
  potential_trade_size : ℚ
  kalshi_ticker : String
  polymarket_yes_token_id : String
  polymarket_no_token_id : String
deriving DecidableEq

/-- `TradeDetails` (`app/domain/types.py`): details of the successful leg
carried by a `TradeFailed` event. -/
structure TradeDetails where
  platform : Platform
  trade_size : ℚ
  order_id : Option String
  kalshi_ticker : Option String
  kalshi_side : Option String
  polymarket_token_id : Option String
deriving DecidableEq

/-- Event `ArbTradeResultReceived` (`app/domain/events.py`): per-leg order
or error string, category, and the opportunity. -/
structure ArbTradeResultReceived where
  category : String
  opportunity : ArbitrageOpportunity
  polymarket_order : Option PolymarketOrder
  polymarket_error : Option String
  kalshi_order : Option KalshiOrder
  kalshi_error_message : Option String
deriving DecidableEq

/-- Messages the executor module can publish on the bus
(`app/domain/events.py`).  `arbitrageTradeSuccessful` is the
`ArbitrageTradeSuccessful` event, defined in the source but — as the
theorems below show — never produced by the executor. -/
inductive ExecEvent
  | storeTradeResults (r : ArbTradeResultReceived)
  | tradeFailed (failedLegPlatform : Platform) (successfulLeg : TradeDetails)
      (opportunity : ArbitrageOpportunity) (errorMessage : String)
  | tradeAttemptCompleted
  | arbitrageTradeSuccessful
deriving DecidableEq

/-- A leg result from `asyncio.gather(..., return_exceptions=True)`: either
an order object or the exception raised by the leg (kept as its message
string, which is all `handle_trade_response` uses). -/
abbrev LegResult (α : Type) := Except String α

/-- `executor.handle_trade_response` (`app/services/execution/executor.py`
lines 138-192).  Returns the bus messages published, in order, together
with the exception aborting the handler, if any.

The `is_kalshi_error and not is_polymarket_error` branch constructs
`TradeDetails(..., order_id=polymarket_result.id, ...)`; `PolymarketOrder`
has no attribute `id` (its field is `orderID`), so that attribute access
raises `AttributeError` after `StoreTradeResults` was published and before
`TradeFailed` or `TradeAttemptCompleted` could be. -/
def handleTradeResponse (kalshiResult : LegResult KalshiOrder)
    (polymarketResult : LegResult PolymarketOrder) (category : String)
    (opportunity : ArbitrageOpportunity) : List ExecEvent × Option PyError :=
  let arbTradeResult : ArbTradeResultReceived :=
    { category := category
      opportunity := opportunity
      kalshi_order := match kalshiResult with | Except.ok o => some o | Except.error _ => none
      polymarket_order := match polymarketResult with | Except.ok o => some o | Except.error _ => none
      kalshi_error_message := match kalshiResult with | Except.ok _ => none | Except.error m => some m
      polymarket_error := match polymarketResult with | Except.ok _ => none | Except.error m => some m }
  match kalshiResult, polymarketResult with
  | Except.error _, Except.ok _ =>
    ([ExecEvent.storeTradeResults arbTradeResult], some PyError.attributeError)
  | Except.ok k, Except.error m =>
    ([ExecEvent.storeTradeResults arbTradeResult,
      ExecEvent.tradeFailed Platform.polymarket
        { platform := Platform.kalshi
          trade_size := k.trade_size
          order_id := k.order_id
          kalshi_ticker := some k.ticker
          kalshi_side := k.side
          polymarket_token_id := none }
        opportunity m,
      ExecEvent.tradeAttemptCompleted], none)
  | _, _ =>
    ([ExecEvent.storeTradeResults arbTradeResult, ExecEvent.tradeAttemptCompleted], none)

/-- Python `int(...)` on a `Decimal`: truncation toward zero. -/
def pyInt (q : ℚ) : ℤ := if q < 0 then ⌈q⌉ else ⌊q⌋

/-- The trade size computed at `executor.py` line 51:
`int(min(Decimal(_max_trade_size), opportunity.potential_trade_size))`,
with `_max_trade_size` defaulting to 50. -/
def tradeSizeUsed (maxTradeSize : ℤ) (pts : ℚ) : ℤ :=
  pyInt (min (maxTradeSize : ℚ) pts)

/-- `executor.handle_execute_trade` (`executor.py` lines 44-79).  The two
leg placements are awaited network calls; their results enter as
parameters.  Zero (or negative) computed size publishes only
`TradeAttemptCompleted`; otherwise the gathered results are classified by
`handleTradeResponse` with category `"buy both"`. -/
def handleExecuteTrade (maxTradeSize : ℤ) (opportunity : ArbitrageOpportunity)
    (kalshiResult : LegResult KalshiOrder) (polymarketResult : LegResult PolymarketOrder) :
    List ExecEvent × Option PyError :=
  let tradeSize := tradeSizeUsed maxTradeSize opportunity.potential_trade_size
  if tradeSize ≤ 0 then ([ExecEvent.tradeAttemptCompleted], none)
  else handleTradeResponse kalshiResult polymarketResult "buy both" opportunity

/-- Modelled from the spec: the §4.5.1 square-root sizing bound
`floor(sqrt(opportunity.potential_trade_size))`, stated for the
non-negative decimal trade sizes it is applied to.  It is compared against
the sizing the executor actually performs (`tradeSizeUsed`). -/
def floorSqrtSizing (q : ℚ) : ℤ := Int.ofNat (Nat.sqrt ⌊q⌋.toNat)

/-- The `'yes'` / `'no'` side literal of a Kalshi wire message
(`KalshiDeltaMessage.msg.side`). -/
inductive MsgSide
  | yes
  | no
deriving DecidableEq

/-- One per-ticker shadow book of the Kalshi adapter:
`self._books_state[market_ticker]`, a `side → (price → absolute size)`
mapping with integer cent prices and integer contract sizes
(`app/ingestion/kalshi_wss_client.py`). -/
structure KalshiShadow where
  yes : List (ℤ × ℤ)
  no : List (ℤ × ℤ)
deriving DecidableEq

/-- Dictionary lookup in a shadow side: `.get(price)` as an option. -/
def shadowLookup (m : List (ℤ × ℤ)) (price : ℤ) : Option ℤ :=
  (m.find? (fun p => decide (p.1 = price))).map Prod.snd

/-- `self._books_state[ticker][side].get(price, 0)`. -/
def shadowGet (m : List (ℤ × ℤ)) (price : ℤ) : ℤ :=
  (shadowLookup m price).getD 0

/-- Dictionary write `self._books_state[ticker][side][price] = new_size`. -/
def shadowSet (m : List (ℤ × ℤ)) (price v : ℤ) : List (ℤ × ℤ) :=
  (price, v) :: m.filter (fun p => decide (p.1 ≠ price))

/-- Select the side map of a shadow, `self._books_state[ticker][msg.side]`. -/
def KalshiShadow.sideMap (sh : KalshiShadow) : MsgSide → List (ℤ × ℤ)
  | MsgSide.yes => sh.yes
  | MsgSide.no => sh.no

/-- Write one side map back. -/
def KalshiShadow.setSide (sh : KalshiShadow) : MsgSide → List (ℤ × ℤ) → KalshiShadow
  | MsgSide.yes, m => { sh with yes := m }
  | MsgSide.no, m => { sh with no := m }

/-- The normalized delta the adapter publishes
(`OrderBookDeltaReceived` with `platform=KALSHI`, `outcome="YES"`): only
the side, decimal price and absolute decimal size vary. -/
structure KalshiDeltaOut where
  side : Side
  price : ℚ
  size : ℚ
deriving DecidableEq

/-- The `orderbook_delta` branch of `KalshiWebSocketClient._listen`
(`app/ingestion/kalshi_wss_client.py` lines 169-188): read the prior
absolute size from the shadow, add the signed delta, write the sum back
into the shadow, and then — only if the sum is non-negative — emit the
normalized event (`yes` side becomes a BUY at `price/100`; `no` side
becomes a SELL at `1 - price/100`).  A negative sum is logged and the
message dropped, but note the shadow write has already happened. -/
def processKalshiDelta (sh : KalshiShadow) (side : MsgSide) (price delta : ℤ) :
    KalshiShadow × Option KalshiDeltaOut :=
  let currentSize := shadowGet (sh.sideMap side) price
  let newSize := currentSize + delta
  let sh2 := sh.setSide side (shadowSet (sh.sideMap side) price newSize)
  if newSize < 0 then (sh2, none)
  else
    match side with
    | MsgSide.yes => (sh2, some ⟨Side.buy, (price : ℚ) / 100, (newSize : ℚ)⟩)
    | MsgSide.no => (sh2, some ⟨Side.sell, 1 - (price : ℚ) / 100, (newSize : ℚ)⟩)

/-- `KalshiWebSocketClient._is_sequence_valid` (`kalshi_wss_client.py`
lines 216-241) over the single shared subscription counter: given the last
observed sequence (baseline 0 after `set_market_config` or a resubscribe)
and the message's optional `seq`, return whether the message is accepted
and the new last-observed value. -/
def kalshiSeqCheck (lastSeq : ℤ) (seq : Option ℤ) : Bool × ℤ :=
  match seq with
  | none => (false, lastSeq)
  | some s =>
    let expectedSeq := lastSeq + 1
    if s = expectedSeq then (true, s)
    else if lastSeq = 0 ∧ s = 1 then (true, s)
    else (false, lastSeq)

/-- Outcome of the sequence gate in `_listen` lines 147-150. -/
inductive SeqOutcome
  | proceed
  | resubscribe
deriving DecidableEq

/-- The sequence gate of `_listen`: an invalid sequence number triggers
`_request_resubscribe`, which closes the socket (code 4000) so the
reconnect loop re-subscribes; a valid one lets processing proceed. -/
def kalshiListenSeqStep (lastSeq : ℤ) (seq : Option ℤ) : SeqOutcome × ℤ :=
  let r := kalshiSeqCheck lastSeq seq
  (if r.1 then SeqOutcome.proceed else SeqOutcome.resubscribe, r.2)

/-- Events handled or published by the arbitrage monitor
(`app/strategies/arbitrage_monitor.py`).  `marketBookUpdated` carries the
result of `_check_for_buy_both_arb` on the market state the handler reads
at that moment (`none` also covers a missing market state, which the
handler treats the same way: no publication, flag unchanged). -/
inductive DetectorEvent
  | marketBookUpdated (found : Option ArbitrageOpportunity)
  | tradeAttemptCompleted
deriving DecidableEq

/-- Events the monitor publishes: `ArbitrageOpportunityFound`. -/
inductive DetectorOut
  | opportunityFound (o : ArbitrageOpportunity)
deriving DecidableEq

/-- One step of the monitor's event handling: `handle_market_book_update`
(lines 49-79) and `handle_trade_attempt_completed` (lines 91-95) acting on
the module-level `_is_trade_in_progress` flag.  Returns the new flag and
the published events. -/
def detectorStep (tradeInProgress : Bool) : DetectorEvent → Bool × List DetectorOut
  | DetectorEvent.marketBookUpdated found =>
    if tradeInProgress then (tradeInProgress, [])
    else
      match found with
      | some o => (true, [DetectorOut.opportunityFound o])
      | none => (tradeInProgress, [])
  | DetectorEvent.tradeAttemptCompleted => (false, [])

/-- `_kalshi_fee(contracts, price, rate)` (`arbitrage_monitor.py` lines
100-107): zero outside the open unit interval, otherwise
`rate * contracts * price * (1 - price)` converted to cents, rounded up to
an integral value (ROUND_CEILING), and converted back to decimal units. -/
def kalshiFee (contracts price rate : ℚ) : ℚ :=
  if price ≤ 0 ∨ 1 ≤ price then 0
  else ((⌈rate * contracts * price * (1 - price) * 100⌉ : ℤ) : ℚ) / 100

/-- `TradeStorage._flush_batch` (`app/services/trade_storage.py` lines
89-110), with the buffer made explicit.  `buffer` is `self.trade_results`
when the flush starts; `during` is whatever `handle_trade_results_received`
appends to the (cleared) buffer while the persistence write is in flight;
`writeOk` is whether `_store_trade_results` succeeds.  On success the batch
is gone; on failure the except-branch runs
`self.trade_results.extend(batch_to_flush)`, appending the batch at the
back of the buffer. -/
def flushBatch (α : Type) (buffer during : List α) (writeOk : Bool) : List α :=
  if buffer.isEmpty then buffer
  else if writeOk then during
  else during ++ buffer

/-- A concrete opportunity used by witnesses and concrete evaluations. -/
def sampleOpportunity : ArbitrageOpportunity :=
  { market_id := "M1"
    buy_yes_platform := Platform.kalshi
    buy_yes_price := 45/100
    buy_no_platform := Platform.polymarket
    buy_no_price := 40/100
    profit_margin := 13/100
    potential_trade_size := 10
    kalshi_ticker := "K1"
    polymarket_yes_token_id := "Y1"
    polymarket_no_token_id := "N1" }

/-- The sample opportunity with zero potential trade size. -/
def sampleZeroOpportunity : ArbitrageOpportunity :=
  { sampleOpportunity with potential_trade_size := 0 }

/-- A concrete successful Kalshi leg result. -/
def sampleKalshiOrder : KalshiOrder :=
  { order_id := some "KO1", side := some "yes", status := "executed",
    ticker := "K1", trade_size := 5 }

/-- A concrete successful Polymarket leg result. -/
def samplePolymarketOrder : PolymarketOrder :=
  { orderID := some "PO1", status := "matched", success := true,
    trade_size := 5, token_id := some "N1" }

/-- Characterization of `kalshiSeqCheck`: a message is accepted exactly
when its sequence number is `last + 1` (the `last_seq == 0 and seq == 1`
branch of the source is subsumed by the `seq == expected_seq` branch), and
the stored counter advances exactly on acceptance. -/
theorem kalshiSeqCheck_eq (lastSeq : ℤ) (seq : Option ℤ) :
    kalshiSeqCheck lastSeq seq =
      (decide (seq = some (lastSeq + 1)),
       if seq = some (lastSeq + 1) then lastSeq + 1 else lastSeq) := by
  cases seq with
  | none => simp [kalshiSeqCheck]
  | some s =>
    by_cases h1 : s = lastSeq + 1
    · simp [kalshiSeqCheck, h1]
    · have h2 : ¬(lastSeq = 0 ∧ s = 1) := by
        rintro ⟨rfl, rfl⟩
        exact h1 (by norm_num)
      simp [kalshiSeqCheck, h1, h2]

/-- C6: for the Kalshi adapter's shared subscription sequence check,
starting from baseline 0, a message with sequence number `seq` is accepted
(and becomes the new last-observed value) if and only if
`seq = last + 1` — so on first connect only `seq = 1` is accepted — and any
message with a different or missing sequence number is rejected, leaving
the counter unchanged and triggering a resubscribe (socket close) in the
listen loop. -/
theorem C6_sequence_check : ∀ (lastSeq : ℤ) (seq : Option ℤ),
    (kalshiSeqCheck lastSeq seq).1 = decide (seq = some (lastSeq + 1)) ∧
    (kalshiSeqCheck lastSeq seq).2 =
      (if seq = some (lastSeq + 1) then lastSeq + 1 else lastSeq) ∧
    (kalshiSeqCheck 0 seq).1 = decide (seq = some 1) ∧
    (kalshiListenSeqStep lastSeq seq).1 =
      (if seq = some (lastSeq + 1) then SeqOutcome.proceed
       else SeqOutcome.resubscribe) := by
  intro lastSeq seq
  refine ⟨?_, ?_, ?_, ?_⟩
  · rw [kalshiSeqCheck_eq]
  · rw [kalshiSeqCheck_eq]
  · rw [kalshiSeqCheck_eq]
    norm_num
  · rw [kalshiListenSeqStep, kalshiSeqCheck_eq]
    by_cases h : seq = some (lastSeq + 1) <;> simp [h]

/-- C7 counterexample: with buffer `[1]` and one record `2` appended while
the failing write is in flight, the code leaves the buffer as `[2, 1]` —
the failed batch is appended at the BACK (`trade_results.extend(batch)`),
not re-prepended at the front as the claim states. -/
theorem C7_flush_failure_counterexample :
    flushBatch ℕ [1] [2] false = [2, 1] ∧ flushBatch ℕ [1] [2] false ≠ [1, 2] := by
  constructor <;> decide

/-- C7 amended: on a failed flush the batch is re-APPENDED at the back of
the buffer, in order, after any records appended during the flush; no
record is lost (the result is a permutation of the old buffer plus the
records appended during the flush). -/
theorem C7_amended_flush_requeue : ∀ (α : Type) (buffer during : List α),
    buffer ≠ [] →
    flushBatch α buffer during false = during ++ buffer ∧
    (flushBatch α buffer during false).Perm (buffer ++ during) := by
  intro α buffer during h
  have hne : buffer.isEmpty = false := by
    cases buffer with
    | nil => exact absurd rfl h
    | cons a l => rfl
  refine ⟨by simp [flushBatch, hne], ?_⟩
  simp only [flushBatch, hne, Bool.false_eq_true, if_false]
  exact List.perm_append_comm

/-- Witness for C7 amended at buffer `[1]`, appended-during `[2]`. -/
theorem C7_amended_flush_requeue_witness :
    flushBatch ℕ [1] [2] false = [2] ++ [1] ∧
    (flushBatch ℕ [1] [2] false).Perm ([1] ++ [2]) :=
  C7_amended_flush_requeue ℕ [1] [2] (by decide)

/-- C5 counterexample: an empty shadow receiving delta `-1` at price 50
emits no event, but the shadow entry at (yes, 50) CHANGES from absent to
`-1`: the write `self._books_state[ticker][side][price] = new_size`
precedes the negativity check. -/
theorem C5_negative_delta_counterexample :
    (processKalshiDelta ⟨[], []⟩ MsgSide.yes 50 (-1)).2 = none ∧
    shadowLookup ((processKalshiDelta ⟨[], []⟩ MsgSide.yes 50 (-1)).1.sideMap MsgSide.yes) 50 =
      some (-1) ∧
    shadowLookup ((⟨[], []⟩ : KalshiShadow).sideMap MsgSide.yes) 50 = none := by
  refine ⟨?_, ?_, ?_⟩ <;> decide

/-- Lookup after a shadow write at the written price. -/
theorem shadowLookup_set (m : List (ℤ × ℤ)) (p v : ℤ) :
    shadowLookup (shadowSet m p v) p = some v := by
  simp [shadowLookup, shadowSet]

/-- C5 amended: for a Kalshi delta whose computed absolute size (prior
shadow size plus the signed delta) is negative, the adapter emits no event,
but the shadow DOES advance: its entry at (side, price) is set to the
negative computed size. -/
theorem C5_amended_negative_delta : ∀ (sh : KalshiShadow) (side : MsgSide) (price delta : ℤ),
    shadowGet (sh.sideMap side) price + delta < 0 →
    (processKalshiDelta sh side price delta).2 = none ∧
    shadowLookup ((processKalshiDelta sh side price delta).1.sideMap side) price =
      some (shadowGet (sh.sideMap side) price + delta) := by
  intro sh side price delta h
  cases side with
  | yes =>
    have h2 : shadowGet sh.yes price + delta < 0 := h
    simp [processKalshiDelta, KalshiShadow.sideMap, KalshiShadow.setSide, h2, shadowLookup_set]
  | no =>
    have h2 : shadowGet sh.no price + delta < 0 := h
    simp [processKalshiDelta, KalshiShadow.sideMap, KalshiShadow.setSide, h2, shadowLookup_set]

/-- Witness for C5 amended at the empty shadow, price 50, delta `-1`. -/
theorem C5_amended_negative_delta_witness :
    (processKalshiDelta ⟨[], []⟩ MsgSide.no 50 (-1)).2 = none ∧
    shadowLookup ((processKalshiDelta ⟨[], []⟩ MsgSide.no 50 (-1)).1.sideMap MsgSide.no) 50 =
      some (shadowGet ((⟨[], []⟩ : KalshiShadow).sideMap MsgSide.no) 50 + (-1)) :=
  C5_amended_negative_delta ⟨[], []⟩ MsgSide.no 50 (-1) (by decide)

/-- C4 counterexample: with the default `_max_trade_size = 50` and an
opportunity of potential size 4, the executor trades 4 contracts, which
exceeds the §4.5.1 bound `floor(sqrt(4)) = 2`. -/
theorem C4_sqrt_sizing_counterexample :
    tradeSizeUsed 50 (4 : ℚ) = 4 ∧ floorSqrtSizing (4 : ℚ) = 2 ∧
    ¬ tradeSizeUsed 50 (4 : ℚ) ≤ floorSqrtSizing (4 : ℚ) := by
  have h4 : ⌊(4 : ℚ)⌋ = 4 := by norm_num
  have hmin : min ((50 : ℤ) : ℚ) 4 = 4 := by norm_num [min_def]
  have h1 : tradeSizeUsed 50 (4 : ℚ) = 4 := by
    unfold tradeSizeUsed pyInt
    rw [hmin]
    norm_num
  have hsqrt : Nat.sqrt 4 = 2 := by
    rw [show (4 : ℕ) = 2 * 2 from rfl]
    exact Nat.sqrt_eq 2
  have h2 : floorSqrtSizing (4 : ℚ) = 2 := by
    unfold floorSqrtSizing
    rw [h4]
    simp [hsqrt]
  refine ⟨h1, h2, ?_⟩
  rw [h1, h2]
  decide

/-- C4 amended: the per-leg trade size is
`int(min(_max_trade_size, potential_trade_size))`: it is bounded by the
configured `_max_trade_size` (default 50), and for a non-negative potential
size it equals the floor of the minimum. -/
theorem C4_amended_size_policy : ∀ (m : ℤ) (pts : ℚ), 0 ≤ m →
    tradeSizeUsed m pts ≤ m ∧ (0 ≤ pts → tradeSizeUsed m pts = ⌊min (m : ℚ) pts⌋) := by
  intro m pts hm
  constructor
  · unfold tradeSizeUsed pyInt
    split
    · calc ⌈min (m : ℚ) pts⌉ ≤ ⌈(m : ℚ)⌉ := Int.ceil_le_ceil (min_le_left _ _)
        _ = m := Int.ceil_intCast m
    · calc ⌊min (m : ℚ) pts⌋ ≤ ⌊(m : ℚ)⌋ := Int.floor_le_floor (min_le_left _ _)
        _ = m := Int.floor_intCast m
  · intro hpts
    unfold tradeSizeUsed pyInt
    rw [if_neg]
    push_neg
    exact le_min (by exact_mod_cast hm) hpts

/-- Witness for C4 amended at `m = 50`, potential size 4. -/
theorem C4_amended_size_policy_witness :
    tradeSizeUsed 50 (4 : ℚ) ≤ 50 ∧ tradeSizeUsed 50 (4 : ℚ) = ⌊min ((50 : ℤ) : ℚ) (4 : ℚ)⌋ :=
  ⟨(C4_amended_size_policy 50 4 (by norm_num)).1,
   (C4_amended_size_policy 50 4 (by norm_num)).2 (by norm_num)⟩

/-- C1: the claimed outcome classification does not hold in the executor.
`handle_trade_response` never publishes `ArbitrageTradeSuccessful` (on any
input) and, at the concrete both-legs-successful input, publishes exactly
`StoreTradeResults` followed by `TradeAttemptCompleted`; the module also
defines no shutdown path for the both-legs-fail case. -/
theorem C1_executor_never_signals_success :
    (∀ (k : LegResult KalshiOrder) (p : LegResult PolymarketOrder) (c : String)
      (o : ArbitrageOpportunity),
      ExecEvent.arbitrageTradeSuccessful ∉ (handleTradeResponse k p c o).1) ∧
    (handleTradeResponse (Except.ok sampleKalshiOrder) (Except.ok samplePolymarketOrder)
        "buy both" sampleOpportunity).1 =
      [ExecEvent.storeTradeResults
        { category := "buy both"
          opportunity := sampleOpportunity
          polymarket_order := some samplePolymarketOrder
          polymarket_error := none
          kalshi_order := some sampleKalshiOrder
          kalshi_error_message := none },
        ExecEvent.tradeAttemptCompleted] := by
  constructor
  · intro k p c o h
    cases k <;> cases p <;> simp [handleTradeResponse] at h
  · rfl

/-- C3: `TradeAttemptCompleted` is published exactly once on the zero-size
path, the both-legs-succeed path, the Polymarket-leg-fails path and the
both-legs-fail path — but on the Kalshi-leg-fails path the handler aborts
with an `AttributeError` (it reads `polymarket_result.id`, a field
`PolymarketOrder` does not define) after `StoreTradeResults` and publishes
NO `TradeAttemptCompleted`, so the claimed invariant fails on that path. -/
theorem C3_trade_attempt_completed_paths :
    (∀ (k : LegResult KalshiOrder) (p : LegResult PolymarketOrder),
      (handleExecuteTrade 50 sampleZeroOpportunity k p).1 = [ExecEvent.tradeAttemptCompleted]) ∧
    (∀ (k : KalshiOrder) (p : PolymarketOrder) (c : String) (o : ArbitrageOpportunity),
      ((handleTradeResponse (Except.ok k) (Except.ok p) c o).1.count
        ExecEvent.tradeAttemptCompleted = 1)) ∧
    (∀ (k : KalshiOrder) (e : String) (c : String) (o : ArbitrageOpportunity),
      ((handleTradeResponse (Except.ok k) (Except.error e) c o).1.count
        ExecEvent.tradeAttemptCompleted = 1)) ∧
    (∀ (e1 e2 : String) (c : String) (o : ArbitrageOpportunity),
      ((handleTradeResponse (Except.error e1) (Except.error e2) c o).1.count
        ExecEvent.tradeAttemptCompleted = 1)) ∧
    (∀ (e : String) (p : PolymarketOrder) (c : String) (o : ArbitrageOpportunity),
      ((handleTradeResponse (Except.error e) (Except.ok p) c o).1.count
        ExecEvent.tradeAttemptCompleted = 0) ∧
      (handleTradeResponse (Except.error e) (Except.ok p) c o).2 =
        some PyError.attributeError) := by
  refine ⟨?_, ?_, ?_, ?_, ?_⟩
  · intro k p
    have hz : tradeSizeUsed 50 sampleZeroOpportunity.potential_trade_size ≤ 0 := by
      show tradeSizeUsed 50 (0 : ℚ) ≤ 0
      unfold tradeSizeUsed pyInt
      norm_num [min_def]
    simp [handleExecuteTrade, hz]
  · intro k p c o
    simp [handleTradeResponse, List.count_cons]
  · intro k e c o
    simp [handleTradeResponse, List.count_cons]
  · intro e1 e2 c o
    simp [handleTradeResponse, List.count_cons]
  · intro e p c o
    exact ⟨by simp [handleTradeResponse, List.count_cons], rfl⟩

/-- C8: for every state of the detector's step function, a step that
publishes `ArbitrageOpportunityFound` leaves `trade_in_progress` true; the
flag stays true across every step other than `TradeAttemptCompleted`
processing; while the flag is true, processing any `MarketBookUpdated`
publishes nothing (in particular no further opportunity); and processing a
`TradeAttemptCompleted` clears the flag. -/
theorem C8_single_inflight_lock : ∀ (flag : Bool) (e : DetectorEvent) (o : ArbitrageOpportunity),
    (DetectorOut.opportunityFound o ∈ (detectorStep flag e).2 → (detectorStep flag e).1 = true) ∧
    (flag = true → e ≠ DetectorEvent.tradeAttemptCompleted → (detectorStep flag e).1 = true) ∧
    (detectorStep true e).2 = [] ∧
    (detectorStep flag DetectorEvent.tradeAttemptCompleted).1 = false := by
  intro flag e o
  refine ⟨?_, ?_, ?_, rfl⟩
  · cases e with
    | marketBookUpdated found =>
      cases found <;> cases flag <;> simp [detectorStep]
    | tradeAttemptCompleted => simp [detectorStep]
  · rintro rfl hne
    cases e with
    | marketBookUpdated found => cases found <;> simp [detectorStep]
    | tradeAttemptCompleted => exact absurd rfl hne
  · cases e with
    | marketBookUpdated found => cases found <;> simp [detectorStep]
    | tradeAttemptCompleted => simp [detectorStep]

/-- Witness for C8 at a concrete locked state and book update. -/
theorem C8_single_inflight_lock_witness :
    (detectorStep true (DetectorEvent.marketBookUpdated (some sampleOpportunity))).1 = true ∧
    (detectorStep true (DetectorEvent.marketBookUpdated (some sampleOpportunity))).2 = [] :=
  ⟨(C8_single_inflight_lock true (DetectorEvent.marketBookUpdated (some sampleOpportunity))
      sampleOpportunity).2.1 rfl (by simp),
   (C8_single_inflight_lock true (DetectorEvent.marketBookUpdated (some sampleOpportunity))
      sampleOpportunity).2.2.1⟩

/-- C9: for positive integer contract counts the Kalshi fee is zero outside
the open unit price interval, and inside it equals the raw fee
`0.07 * n * p * (1 - p)` converted to cents, rounded up with the ceiling,
and converted back: a whole number of cents `c/100` with
`raw ≤ fee < raw + 1/100`. -/
theorem C9_kalshi_fee : ∀ (n : ℤ) (p : ℚ), 0 < n →
    ((p ≤ 0 ∨ 1 ≤ p) → kalshiFee (n : ℚ) p (7/100) = 0) ∧
    (0 < p → p < 1 →
      kalshiFee (n : ℚ) p (7/100) =
        ((⌈(7/100 : ℚ) * (n : ℚ) * p * (1 - p) * 100⌉ : ℤ) : ℚ) / 100 ∧
      (7/100 : ℚ) * (n : ℚ) * p * (1 - p) ≤ kalshiFee (n : ℚ) p (7/100) ∧
      kalshiFee (n : ℚ) p (7/100) < (7/100 : ℚ) * (n : ℚ) * p * (1 - p) + 1/100 ∧
      ∃ c : ℤ, kalshiFee (n : ℚ) p (7/100) = (c : ℚ) / 100) := by
  intro n p _
  constructor
  · intro hout
    unfold kalshiFee
    rw [if_pos hout]
  · intro hp0 hp1
    have hin : ¬((p ≤ 0 ∨ 1 ≤ p)) := by
      push_neg
      exact ⟨hp0, hp1⟩
    have hfee : kalshiFee (n : ℚ) p (7/100) =
        ((⌈(7/100 : ℚ) * (n : ℚ) * p * (1 - p) * 100⌉ : ℤ) : ℚ) / 100 := by
      unfold kalshiFee
      rw [if_neg hin]
    refine ⟨hfee, ?_, ?_, ⟨⌈(7/100 : ℚ) * (n : ℚ) * p * (1 - p) * 100⌉, hfee⟩⟩
    · rw [hfee, le_div_iff₀ (by norm_num : (0:ℚ) < 100)]
      exact Int.le_ceil _
    · rw [hfee, div_lt_iff₀ (by norm_num : (0:ℚ) < 100)]
      calc ((⌈(7/100 : ℚ) * (n : ℚ) * p * (1 - p) * 100⌉ : ℤ) : ℚ)
          < (7/100 : ℚ) * (n : ℚ) * p * (1 - p) * 100 + 1 := Int.ceil_lt_add_one _
        _ = ((7/100 : ℚ) * (n : ℚ) * p * (1 - p) + 1/100) * 100 := by ring

/-- Witness for C9 at one contract and price one half (fee is 2 cents),
plus the boundary case at price 2. -/
theorem C9_kalshi_fee_witness :
    kalshiFee ((1 : ℤ) : ℚ) (1/2) (7/100) =
      ((⌈(7/100 : ℚ) * ((1 : ℤ) : ℚ) * (1/2) * (1 - 1/2) * 100⌉ : ℤ) : ℚ) / 100 ∧
    kalshiFee ((1 : ℤ) : ℚ) 2 (7/100) = 0 :=
  ⟨((C9_kalshi_fee 1 (1/2) (by norm_num)).2 (by norm_num) (by norm_num)).1,
   (C9_kalshi_fee 1 2 (by norm_num)).1 (Or.inr (by norm_num))⟩

/-- C2: the claimed emitted-iff-top-changed equivalence fails on the
snapshot path.  For EVERY snapshot event whose (market, venue, outcome)
book is registered, `_handle_snapshot` clears the book and then aborts with
`AttributeError` (the `Orderbook` class has no `apply_updates` method), so
no `MarketBookUpdated` is ever published on the snapshot path — even when
the top of book changes (here the registered book starts non-empty, so the
clear itself changes its top of book and no event reports it).  The delta
path does satisfy the claimed equivalence. -/
theorem C2_snapshot_never_emits :
    (∀ (st : ManagerState) (se : SnapshotEvent) (b : Orderbook),
      lookupBook st se.marketId se.platform se.outcome = some b →
      handleSnapshot st se =
        ((st.setBook se.marketId se.platform se.outcome ⟨[], []⟩, []),
         some PyError.attributeError)) ∧
    (∀ (st : ManagerState) (de : DeltaEvent) (c : Orderbook),
      lookupBook st de.marketId de.platform de.outcome = some c →
      (handleDelta st de).2 =
        (if c.getTopOfBook ≠ (c.applyUpdate de.side de.price de.size).getTopOfBook
         then [BusEvent.bookUpdated de.marketId de.platform] else [])) := by
  constructor
  · intro st se b hs
    simp only [handleSnapshot, hs, Orderbook.clearBook]
  · intro st de c hd
    simp only [handleDelta, hd]
    split <;> simp

/-- A concrete manager state with market `M1` registered. -/
def sampleManagerState : ManagerState := registerMarket ⟨[]⟩ "M1"

/-- `sampleManagerState` after a bid has been placed into the Kalshi YES
book of `M1`, so that book has a non-empty top of book. -/
def sampleManagerStateWithBid : ManagerState :=
  (handleDelta sampleManagerState
    { platform := Platform.kalshi, marketId := "M1", outcome := Outcome.yes,
      side := Side.buy, price := 3/5, size := 10 }).1

/-- A Kalshi YES snapshot for `M1`. -/
def sampleSnapshotEvent : SnapshotEvent :=
  { platform := Platform.kalshi, marketId := "M1", outcome := Outcome.yes,
    bids := [(3/5, 10)], asks := [(9/20, 10)] }

/-- A Polymarket NO delta for `M1`. -/
def sampleDeltaEvent : DeltaEvent :=
  { platform := Platform.polymarket, marketId := "M1", outcome := Outcome.no,
    side := Side.sell, price := 2/5, size := 10 }

/-- Witness for C2 at the registered market `M1`: the snapshot aborts
having only cleared the non-empty Kalshi YES book, and the delta obeys the
equivalence. -/
theorem C2_snapshot_never_emits_witness :
    handleSnapshot sampleManagerStateWithBid sampleSnapshotEvent =
      ((sampleManagerStateWithBid.setBook sampleSnapshotEvent.marketId
          sampleSnapshotEvent.platform sampleSnapshotEvent.outcome ⟨[], []⟩, []),
       some PyError.attributeError) ∧
    (handleDelta sampleManagerState sampleDeltaEvent).2 =
      (if (⟨[], []⟩ : Orderbook).getTopOfBook ≠
          ((⟨[], []⟩ : Orderbook).applyUpdate sampleDeltaEvent.side sampleDeltaEvent.price
            sampleDeltaEvent.size).getTopOfBook
       then [BusEvent.bookUpdated sampleDeltaEvent.marketId sampleDeltaEvent.platform]
       else []) :=
  ⟨C2_snapshot_never_emits.1 sampleManagerStateWithBid sampleSnapshotEvent
    ⟨[(3/5, 10)], []⟩ rfl,
   C2_snapshot_never_emits.2 sampleManagerState sampleDeltaEvent ⟨[], []⟩ rfl⟩

/-- C10: a snapshot or delta event whose (market, venue, outcome) has no
allocated book — unregistered market, missing venue container, or missing
outcome book — leaves the manager state unchanged and publishes nothing
(both handlers are total: the event is silently dropped). -/
theorem C10_unregistered_events_dropped :
    ∀ (st : ManagerState) (se : SnapshotEvent) (de : DeltaEvent),
    lookupBook st se.marketId se.platform se.outcome = none →
    lookupBook st de.marketId de.platform de.outcome = none →
    handleSnapshot st se = ((st, []), none) ∧ handleDelta st de = (st, []) := by
  intro st se de hs hd
  constructor
  · simp only [handleSnapshot, hs]
  · simp only [handleDelta, hd]

/-- A snapshot aimed at the Kalshi NO book, which `register_market` never
allocates. -/
def sampleKalshiNoSnapshot : SnapshotEvent :=
  { platform := Platform.kalshi, marketId := "M1", outcome := Outcome.no,
    bids := [(1/2, 1)], asks := [] }

/-- A delta for a market id that is not registered. -/
def sampleUnregisteredDelta : DeltaEvent :=
  { platform := Platform.kalshi, marketId := "M2", outcome := Outcome.yes,
    side := Side.buy, price := 1/2, size := 1 }

/-- Witness for C10: Kalshi NO snapshot on a registered market, and a delta
for an unregistered market, are both dropped without any state change. -/
theorem C10_unregistered_events_dropped_witness :
    handleSnapshot sampleManagerState sampleKalshiNoSnapshot = ((sampleManagerState, []), none) ∧
    handleDelta sampleManagerState sampleUnregisteredDelta = (sampleManagerState, []) :=
  C10_unregistered_events_dropped sampleManagerState sampleKalshiNoSnapshot
    sampleUnregisteredDelta rfl rfl
